import Mathlib

/-
Verification of the render-and-cache orchestration pipeline of the
base server (`packages/next/server/base-server.ts`).

The shallow embedding below translates, from the source:
  * the `ssgCacheKey` derivation (lines 1141-1180),
  * the early method / status-page checks at the top of
    `renderToResponseWithComponents` (lines 1000-1035),
  * the response-cache miss handler passed to `responseCache.get`
    (lines 1280-1405), including the fallback-mode escalations and the
    `doRender` result conversion (lines 1182-1278),
  * the code consuming the cache entry after `responseCache.get`
    returns (lines 1407-1498),
  * the candidate-walking dispatcher `renderToResponse` together with
    `renderPageComponent` (lines 1531-1693).

External collaborators (the renderer, the response-cache store, the
route matcher, percent-decoding/escaping of path segments) are passed
in as explicit data or function parameters, mirroring the narrow
contracts they are consumed through.
-/

set_option autoImplicit false

namespace NextBase

/-- Opaque page-props payload (`pageData` / redirect `props`); the server
treats it opaquely and only ever hands it to a JSON serializer. -/
abbrev PageData := String

/-- A `RenderResult` value: either a static string
(`RenderResult.fromStatic`) or a streamed/piped result, which the server
passes through without inspecting. -/
inductive RenderRes where
  | fromStatic (s : String)
  | stream (id : Nat)
deriving DecidableEq

/-- A `revalidate` value as stored on a cache entry: a number of seconds
or the literal `false` (never revalidate). `Option Revalidate` encodes a
possibly-`undefined` JS value. -/
inductive Revalidate where
  | num (n : Int)
  | off
deriving DecidableEq

/-- `ResponseCacheValue`: `PAGE`, `REDIRECT` or `IMAGE` cache-entry
payloads. A `null` value (not-found) is encoded as `Option` `none` at
the entry level. -/
inductive ResponseCacheValue where
  | page (html : RenderRes) (pageData : PageData)
  | redirect (props : PageData)
  | image
deriving DecidableEq

/-- `ResponseCacheEntry` as produced by the miss handler and as returned
from `responseCache.get` (the store adds the `isStale` / `isMiss`
bookkeeping; they default to `false` on freshly produced entries). -/
structure ResponseCacheEntry where
  revalidate : Option Revalidate := none
  value : Option ResponseCacheValue
  isStale : Bool := false
  isMiss : Bool := false
deriving DecidableEq

/-- Error taxonomy of the pipeline, as distinguished by `instanceof`
checks in the source: `DecodeError`, `NormalizeError`, `NoFallbackError`,
`MissingStaticPage`, `WrappedBuildError`, plain invariant `Error`s thrown
with an `invariant:` message, and opaque renderer/user errors. -/
inductive ServerError where
  | decode
  | normalize
  | noFallback
  | missingStaticPage
  | wrappedBuild
  | invariantViolation (msg : String)
  | renderer
deriving DecidableEq

/- ----------------------------------------------------------------- -/
/- Cache-key derivation (`ssgCacheKey`, source lines 1141-1180)      -/
/- ----------------------------------------------------------------- -/

/-- Request/page facts consumed by the `ssgCacheKey` derivation.
`supportsDynamicHTML` is the value of `opts.supportsDynamicHTML` after
the bot/AMP toggle at lines 1041-1058; `resolvedUrlPathname` is the
rewritten, trailing-slash-stripped, locale-stripped path of lines
1091-1139. -/
structure KeyCtx where
  isPreviewMode : Bool
  isSSG : Bool
  supportsDynamicHTML : Bool
  isFlightRequest : Bool
  locale : Option String
  pathname : String
  resolvedUrlPathname : String
  queryAmp : Bool
deriving DecidableEq

/-- The `${locale ? `/${locale}` : ''}` locale piece of the key. -/
def prefixOfLocale : Option String → String
  | some l => "/" ++ l
  | none => ""

/-- The `${query.amp ? '.amp' : ''}` piece of the key. -/
def ampSuffix (queryAmp : Bool) : String :=
  if queryAmp then ".amp" else ""

/-- JS `key.split('/')` over the character list (split on every slash,
keeping empty segments, `[""]` for the empty string). -/
def splitSlashChars : List Char → List String
  | [] => [""]
  | c :: rest =>
    let r := splitSlashChars rest
    if c = '/' then "" :: r
    else
      match r with
      | [] => [String.mk [c]]
      | s :: tail => String.mk (c :: s.data) :: tail

/-- JS `key.split('/')`. -/
def splitSlash (s : String) : List String :=
  splitSlashChars s.data

/-- JS `segments.join('/')`. -/
def joinSlash : List String → String
  | [] => ""
  | [s] => s
  | s :: rest => s ++ "/" ++ joinSlash rest

/-- Apply the per-segment transform to every segment, failing if any
segment fails (the JS `try { decodeURIComponent } catch { throw }`). -/
def mapSegments (esc : String → Option String) : List String → Option (List String)
  | [] => some []
  | s :: rest =>
    match esc s, mapSegments esc rest with
    | some t, some ts => some (t :: ts)
    | _, _ => none

/-- The segment-wise re-encoding of the key at lines 1156-1175:
`key.split('/').map(seg => escapePathDelimiters(decodeURIComponent(seg), true)).join('/')`.
The per-segment transform `esc` (percent-decode, then re-escape the
path-delimiter set) is an external parameter; `none` models the decode
throw that becomes a `DecodeError`. -/
def encodeKey (esc : String → Option String) (k : String) : Option String :=
  (mapSegments esc (splitSlash k)).map joinSlash

/-- The normal path-based key of lines 1141-1148 (the non-`null` arm). -/
def normalKeyOf (c : KeyCtx) : String :=
  prefixOfLocale c.locale ++
    (if (decide (c.pathname = "/") || decide (c.resolvedUrlPathname = "/")) && c.locale.isSome
      then "" else c.resolvedUrlPathname) ++
    ampSuffix c.queryAmp

/-- The special status-page key of lines 1150-1154. -/
def statusKeyOf (c : KeyCtx) : String :=
  prefixOfLocale c.locale ++ c.pathname ++ ampSuffix c.queryAmp

/-- `ssgCacheKey` before segment re-encoding: `null` for preview /
non-SSG / dynamic-HTML / flight requests (lines 1141-1148), then the
unconditional 404/500-page override of lines 1150-1154. -/
def rawSsgCacheKey (c : KeyCtx) : Option String :=
  let base :=
    if c.isPreviewMode || !c.isSSG || c.supportsDynamicHTML || c.isFlightRequest
      then none
      else some (normalKeyOf c)
  if (decide (c.pathname = "/404") || decide (c.pathname = "/500")) && c.isSSG
    then some (statusKeyOf c)
    else base

/-- Full `ssgCacheKey` derivation, lines 1141-1180: raw key, segment
re-encoding (a failed decode throws `DecodeError`), and the final
`/index`-to-`/` normalization. -/
def deriveSsgCacheKey (esc : String → Option String) (c : KeyCtx) :
    Except ServerError (Option String) :=
  match rawSsgCacheKey c with
  | none => .ok none
  | some k =>
    match encodeKey esc k with
    | none => .error .decode
    | some k2 =>
      .ok (some (if decide (k2 = "/index") && decide (c.pathname = "/") then "/" else k2))

/- ----------------------------------------------------------------- -/
/- Claims C4 and C5                                                  -/
/- ----------------------------------------------------------------- -/

/-- Claim C4, as stated, fails on the code: a preview-mode request for
the SSG `/404` page still derives the special status-page key `/404`
(the lines 1150-1154 override runs after the preview-mode `null`
assignment), so the derived key is not `null` although preview mode is
active. -/
theorem c4_preview_key_counterexample :
    deriveSsgCacheKey some
        { isPreviewMode := true, isSSG := true, supportsDynamicHTML := false,
          isFlightRequest := false, locale := none, pathname := "/404",
          resolvedUrlPathname := "/404", queryAmp := false } =
      .ok (some ("/404")) ∧
    ({ isPreviewMode := true, isSSG := true, supportsDynamicHTML := false,
       isFlightRequest := false, locale := none, pathname := "/404",
       resolvedUrlPathname := "/404", queryAmp := false } : KeyCtx).isPreviewMode = true :=
  ⟨rfl, rfl⟩

/-- Claim C4 (amended): for every request in preview mode the derived
`ssgCacheKey` is `null`, unless the pathname is `/404` or `/500` with an
SSG page, in which case the special status-page key is still derived. -/
theorem c4_preview_key_null (esc : String → Option String) (c : KeyCtx)
    (hprev : c.isPreviewMode = true)
    (hnot : ¬((c.pathname = "/404" ∨ c.pathname = "/500") ∧ c.isSSG = true)) :
    deriveSsgCacheKey esc c = .ok none := by
  have hbase : rawSsgCacheKey c = none := by
    unfold rawSsgCacheKey
    rcases h4 : decide (c.pathname = "/404") with _ | _ <;>
      rcases h5 : decide (c.pathname = "/500") with _ | _ <;>
      rcases hs : c.isSSG with _ | _ <;>
      simp_all [hprev]
  unfold deriveSsgCacheKey
  rw [hbase]

/-- Witness for the amended claim C4 at a concrete preview request. -/
theorem c4_preview_key_null_witness :
    deriveSsgCacheKey some
        { isPreviewMode := true, isSSG := true, supportsDynamicHTML := false,
          isFlightRequest := false, locale := some ("en"), pathname := "/blog/x",
          resolvedUrlPathname := "/blog/x", queryAmp := false } = .ok none :=
  c4_preview_key_null some _ rfl (by decide)

/-- Claim C5: for an SSG `/404` or `/500` page the derived key is the
locale piece followed by the status pathname (plus the optional `.amp`
suffix), and it does not depend on the resolved request path; here `esc`
is assumed to leave the composed status key unchanged (the percent-decode
/ re-escape transform is the identity on plain segments such as locale
codes and `404`/`500`). -/
theorem c5_status_page_key (esc : String → Option String) (c : KeyCtx) (r' : String)
    (hpage : c.pathname = "/404" ∨ c.pathname = "/500")
    (hssg : c.isSSG = true)
    (henc : encodeKey esc (prefixOfLocale c.locale ++ c.pathname ++ ampSuffix c.queryAmp) =
      some (prefixOfLocale c.locale ++ c.pathname ++ ampSuffix c.queryAmp)) :
    deriveSsgCacheKey esc c =
      .ok (some (prefixOfLocale c.locale ++ c.pathname ++ ampSuffix c.queryAmp)) ∧
    deriveSsgCacheKey esc { c with resolvedUrlPathname := r' } =
      .ok (some (prefixOfLocale c.locale ++ c.pathname ++ ampSuffix c.queryAmp)) := by
  have hnotroot : ¬(c.pathname = "/") := by
    rcases hpage with h | h <;> rw [h] <;> decide
  have hcond : ((decide (c.pathname = "/404") || decide (c.pathname = "/500")) && c.isSSG) = true := by
    rcases hpage with h | h <;> simp [h, hssg]
  have hraw : rawSsgCacheKey c = some (statusKeyOf c) := by
    unfold rawSsgCacheKey
    simp [hcond]
  have hraw' : rawSsgCacheKey { c with resolvedUrlPathname := r' } =
      some (statusKeyOf { c with resolvedUrlPathname := r' }) := by
    unfold rawSsgCacheKey
    simp [hcond]
  have hstat : statusKeyOf c = prefixOfLocale c.locale ++ c.pathname ++ ampSuffix c.queryAmp := rfl
  have hstat' : statusKeyOf { c with resolvedUrlPathname := r' } =
      prefixOfLocale c.locale ++ c.pathname ++ ampSuffix c.queryAmp := rfl
  constructor
  · unfold deriveSsgCacheKey
    rw [hraw, hstat]
    simp [henc, hnotroot]
  · unfold deriveSsgCacheKey
    rw [hraw', hstat']
    simp [henc, hnotroot]

/-- Witness for claim C5: the SSG `/404` page under locale `en`, reached
via the unrelated resolved path `/blog/hello`, keys as `/en/404`. -/
theorem c5_status_page_key_witness :
    deriveSsgCacheKey some
        { isPreviewMode := false, isSSG := true, supportsDynamicHTML := false,
          isFlightRequest := false, locale := some ("en"), pathname := "/404",
          resolvedUrlPathname := "/weird/trigger", queryAmp := false } =
      .ok (some (prefixOfLocale (some ("en")) ++ "/404" ++ ampSuffix false)) ∧
    deriveSsgCacheKey some
        { isPreviewMode := false, isSSG := true, supportsDynamicHTML := false,
          isFlightRequest := false, locale := some ("en"), pathname := "/404",
          resolvedUrlPathname := "/blog/hello", queryAmp := false } =
      .ok (some (prefixOfLocale (some ("en")) ++ "/404" ++ ampSuffix false)) :=
  c5_status_page_key some
    { isPreviewMode := false, isSSG := true, supportsDynamicHTML := false,
      isFlightRequest := false, locale := some ("en"), pathname := "/404",
      resolvedUrlPathname := "/weird/trigger", queryAmp := false }
    "/blog/hello" (Or.inl rfl) rfl (by rfl)

/- ----------------------------------------------------------------- -/
/- Fallback policy and the response-cache miss handler               -/
/- (source lines 916-937 and 1182-1405)                              -/
/- ----------------------------------------------------------------- -/

/-- Fallback mode for a dynamic page: `'static'`, `'blocking'` or the
literal `false` (disabled). -/
inductive FallbackMode where
  | static
  | blocking
  | disabled
deriving DecidableEq

/-- JS `fallbackMode === 'blocking'`. -/
def FallbackMode.isBlocking : FallbackMode → Bool
  | .blocking => true
  | _ => false

/-- JS `fallbackMode === 'static'`. -/
def FallbackMode.isStatic : FallbackMode → Bool
  | .static => true
  | _ => false

/-- JS `fallbackMode === false`. -/
def FallbackMode.isDisabled : FallbackMode → Bool
  | .disabled => true
  | _ => false

/-- The `fallback` field of a dynamic route in the prerender manifest: a
string (static placeholder path), the sentinel `null`, or absent
(`false`). -/
inductive FallbackField where
  | str (s : String)
  | nullSentinel
  | absent
deriving DecidableEq

/-- The manifest-field-to-mode mapping of `getStaticPaths` (lines
928-936): a string means `'static'`, `null` means `'blocking'`,
anything else means `false`. -/
def fallbackModeOfField : FallbackField → FallbackMode
  | .str _ => .static
  | .nullSentinel => .blocking
  | .absent => .disabled

/-- The base-class `getStaticPaths` (lines 916-937): `staticPaths` is
intentionally `undefined` in production, the mode comes from the
manifest declaration. -/
def getStaticPathsBase (manifest : String → FallbackField) (pathname : String) :
    Option (List String) × FallbackMode :=
  (none, fallbackModeOfField (manifest pathname))

/-- What the external renderer handed back through `renderOpts` inside
`doRender` (lines 1182-1264): the markup (or `null`), the page data, the
`revalidate` value (possibly `undefined`), and the not-found / redirect
flags. -/
structure RenderOutput where
  body : Option RenderRes
  pageData : PageData
  revalidate : Option Revalidate
  isNotFound : Bool
  isRedirect : Bool
deriving DecidableEq

/-- The tail of `doRender` (lines 1266-1277): convert the renderer
output into a `ResponseCacheEntry`, or `null` when there is no body and
the result is neither a not-found nor a redirect. -/
def doRenderOf (r : RenderOutput) : Option ResponseCacheEntry :=
  if r.isNotFound then some { revalidate := r.revalidate, value := none }
  else if r.isRedirect then
    some { revalidate := r.revalidate, value := some (.redirect r.pageData) }
  else
    match r.body with
    | none => none
    | some b => some { revalidate := r.revalidate, value := some (.page b r.pageData) }

/-- Request/page facts consumed by the miss handler closure passed to
`responseCache.get` (lines 1280-1405). `staticPathsResult` is what
`this.getStaticPaths(pathname)` returned (the base class always returns
`(undefined, manifest mode)`, see `getStaticPathsBase`); `renderOutput`
is what the external renderer produces when `doRender` runs;
`fallbackHtml` is what `this.getFallback` returns in production. -/
structure HandlerCtx where
  minimalMode : Bool
  dev : Bool
  pathnameIsDynamic : Bool
  hasStaticPaths : Bool
  staticPathsResult : Option (List String) × FallbackMode
  isBotRequest : Bool
  isManualRevalidate : Bool
  revalidateOnlyGenerated : Bool
  ssgCacheKey : Option String
  resSent : Bool
  isPreviewMode : Bool
  isDataReq : Bool
  queryAmp : Bool
  fallbackHtml : String
  renderOutput : RenderOutput
deriving DecidableEq

/-- Side effects the handler can perform besides returning an entry:
rendering the 404 page, and the number of `doRender` (producer)
invocations. -/
structure HandlerEffects where
  rendered404 : Bool
  doRenderCalls : Nat
deriving DecidableEq

/-- What the handler closure ends in: throwing `NoFallbackError`, or
returning an entry / `null`. -/
inductive HandlerResult where
  | noFallbackError
  | entry (e : Option ResponseCacheEntry)
deriving DecidableEq

/-- The `pageData: {}` of the production fallback skeleton (line 1368):
the empty props object. -/
def emptyPageData : PageData := "\x7b\x7d"

/-- Lines 1300-1305: skip manual revalidate when no cache entry exists,
`revalidate-if-generated` is set and the server is not in minimal mode. -/
def fallbackSkipCond (ctx : HandlerCtx) (hadCache : Bool) : Bool :=
  ctx.isManualRevalidate && ctx.revalidateOnlyGenerated && !hadCache && !ctx.minimalMode

/-- `staticPaths` as seen by the handler (lines 1287-1289): `undefined`
when the page has no `getStaticPaths`. -/
def handlerStaticPaths (ctx : HandlerCtx) : Option (List String) :=
  if ctx.hasStaticPaths then ctx.staticPathsResult.1 else none

/-- The declared fallback mode as seen by the handler (lines 1287-1289):
`false` when the page has no `getStaticPaths`. -/
def declaredFallbackMode (ctx : HandlerCtx) : FallbackMode :=
  if ctx.hasStaticPaths then ctx.staticPathsResult.2 else .disabled

/-- Lines 1291-1296: a `'static'` fallback is escalated to `'blocking'`
for bot user-agents. -/
def escalateForBot (fb : FallbackMode) (isBot : Bool) : FallbackMode :=
  if fb.isStatic && isBot then .blocking else fb

/-- Lines 1310-1314: manual revalidation escalates to `'blocking'` when
fallback is enabled or a cached entry already exists. -/
def escalateForManual (fb : FallbackMode) (isManualRevalidate hadCache : Bool) : FallbackMode :=
  if isManualRevalidate && (!fb.isDisabled || hadCache) then .blocking else fb

/-- The effective fallback mode the handler works with after both
escalations. -/
def handlerEffectiveMode (ctx : HandlerCtx) (hadCache : Bool) : FallbackMode :=
  escalateForManual (escalateForBot (declaredFallbackMode ctx) ctx.isBotRequest)
    ctx.isManualRevalidate hadCache

/-- JS `key.replace(/\.amp$/, '')`. -/
def stripAmpSuffix (k : String) : String :=
  if k.data.reverse.take 4 = ['p', 'm', 'a', '.']
    then String.mk ((k.data.reverse.drop 4).reverse)
    else k

/-- The key compared against `staticPaths` (lines 1341-1346): the
`ssgCacheKey` with the `.amp` suffix stripped for AMP requests. -/
def ampAdjustedKey (ctx : HandlerCtx) : String :=
  let k := ctx.ssgCacheKey.getD ""
  if ctx.queryAmp then stripAmpSuffix k else k

/-- The last conjunct of the skeleton condition (lines 1340-1346):
`isProduction || !staticPaths || !staticPaths.includes(key)`. -/
def skeletonPathCheck (ctx : HandlerCtx) : Bool :=
  !ctx.dev ||
    (match handlerStaticPaths ctx with
     | none => true
     | some sp => !sp.contains (ampAdjustedKey ctx))

/-- The skeleton-vs-block decision guard of lines 1331-1347. -/
def skeletonOuterCond (ctx : HandlerCtx) (hasResolved hadCache : Bool) : Bool :=
  !ctx.minimalMode &&
  !(handlerEffectiveMode ctx hadCache).isBlocking &&
  ctx.ssgCacheKey.isSome &&
  !(hasResolved || ctx.resSent) &&
  !ctx.isPreviewMode &&
  ctx.pathnameIsDynamic &&
  skeletonPathCheck ctx

/-- Lines 1348-1356: `(isProduction || staticPaths) && fallbackMode !== 'static'`
aborts the render with `NoFallbackError`. -/
def skeletonThrowCond (ctx : HandlerCtx) (hadCache : Bool) : Bool :=
  (!ctx.dev || (handlerStaticPaths ctx).isSome) &&
  !(handlerEffectiveMode ctx hadCache).isStatic

/-- Lines 1393-1399: the persisted `revalidate` defaults to `1` when the
producer left it `undefined`, and is kept unchanged otherwise. -/
def persistRevalidate (r : Option Revalidate) : Option Revalidate :=
  some (r.getD (.num 1))

/-- Lines 1389-1399: run `doRender` and persist its result with the
`revalidate` default applied. -/
def handlerMainPath (ctx : HandlerCtx) : HandlerResult × HandlerEffects :=
  match doRenderOf ctx.renderOutput with
  | none => (.entry none, { rendered404 := false, doRenderCalls := 1 })
  | some r =>
    (.entry (some { r with revalidate := persistRevalidate r.revalidate }),
     { rendered404 := false, doRenderCalls := 1 })

/-- The miss-handler closure passed to `responseCache.get` (lines
1280-1405): manual-revalidate skip (404), the `NoFallbackError` abort,
the production static-fallback skeleton, the development on-demand
fallback render (whose `revalidate` is deleted), and the normal blocking
render with the `revalidate` default. -/
def responseGenerator (ctx : HandlerCtx) (hasResolved hadCache : Bool) :
    HandlerResult × HandlerEffects :=
  if fallbackSkipCond ctx hadCache then
    (.entry none, { rendered404 := true, doRenderCalls := 0 })
  else if skeletonOuterCond ctx hasResolved hadCache then
    if skeletonThrowCond ctx hadCache then
      (.noFallbackError, { rendered404 := false, doRenderCalls := 0 })
    else if !ctx.isDataReq then
      if !ctx.dev then
        (.entry (some { revalidate := none,
                        value := some (.page (.fromStatic ctx.fallbackHtml) emptyPageData) }),
         { rendered404 := false, doRenderCalls := 0 })
      else
        match doRenderOf ctx.renderOutput with
        | none => (.entry none, { rendered404 := false, doRenderCalls := 1 })
        | some r =>
          (.entry (some { r with revalidate := none }),
           { rendered404 := false, doRenderCalls := 1 })
    else
      handlerMainPath ctx
  else
    handlerMainPath ctx

/- ----------------------------------------------------------------- -/
/- Claims C2, C6, C7, C8                                             -/
/- ----------------------------------------------------------------- -/

/-- Claim C2, as stated, fails on the code in minimal mode: with
`minimalMode` set, a manual-revalidate request under
`revalidate-only-generated` against a key with no cache entry is *not*
answered with a 404 (the skip at lines 1300-1308 requires
`!this.minimalMode`); the producer runs once instead. -/
theorem c2_manual_revalidate_counterexample :
    ({ minimalMode := true, dev := false, pathnameIsDynamic := false,
       hasStaticPaths := false, staticPathsResult := (none, .disabled),
       isBotRequest := false, isManualRevalidate := true,
       revalidateOnlyGenerated := true, ssgCacheKey := some ("/x"),
       resSent := false, isPreviewMode := false, isDataReq := false,
       queryAmp := false, fallbackHtml := "",
       renderOutput := { body := some (.fromStatic ("h")), pageData := "d",
                         revalidate := some (.num 5), isNotFound := false,
                         isRedirect := false } } : HandlerCtx).isManualRevalidate = true ∧
    ({ minimalMode := true, dev := false, pathnameIsDynamic := false,
       hasStaticPaths := false, staticPathsResult := (none, .disabled),
       isBotRequest := false, isManualRevalidate := true,
       revalidateOnlyGenerated := true, ssgCacheKey := some ("/x"),
       resSent := false, isPreviewMode := false, isDataReq := false,
       queryAmp := false, fallbackHtml := "",
       renderOutput := { body := some (.fromStatic ("h")), pageData := "d",
                         revalidate := some (.num 5), isNotFound := false,
                         isRedirect := false } } : HandlerCtx).revalidateOnlyGenerated = true ∧
    (responseGenerator
        { minimalMode := true, dev := false, pathnameIsDynamic := false,
          hasStaticPaths := false, staticPathsResult := (none, .disabled),
          isBotRequest := false, isManualRevalidate := true,
          revalidateOnlyGenerated := true, ssgCacheKey := some ("/x"),
          resSent := false, isPreviewMode := false, isDataReq := false,
          queryAmp := false, fallbackHtml := "",
          renderOutput := { body := some (.fromStatic ("h")), pageData := "d",
                            revalidate := some (.num 5), isNotFound := false,
                            isRedirect := false } }
        false false).2 =
      { rendered404 := false, doRenderCalls := 1 } :=
  ⟨rfl, rfl, rfl⟩

/-- Claim C2 (amended): outside minimal mode, a manual-revalidate
request under the `revalidate only generated` policy whose key has no
existing cache entry is answered by rendering the 404 page, the handler
returns `null`, and the producer (`doRender`) is never invoked. -/
theorem c2_manual_revalidate_404 (ctx : HandlerCtx) (hasResolved hadCache : Bool)
    (hman : ctx.isManualRevalidate = true)
    (hgen : ctx.revalidateOnlyGenerated = true)
    (hmin : ctx.minimalMode = false)
    (hcache : hadCache = false) :
    responseGenerator ctx hasResolved hadCache =
      (.entry none, { rendered404 := true, doRenderCalls := 0 }) := by
  unfold responseGenerator
  simp [fallbackSkipCond, hman, hgen, hmin, hcache]

/-- Witness for the amended claim C2 at a concrete manual revalidate. -/
theorem c2_manual_revalidate_404_witness :
    responseGenerator
        { minimalMode := false, dev := false, pathnameIsDynamic := true,
          hasStaticPaths := true, staticPathsResult := (none, .disabled),
          isBotRequest := false, isManualRevalidate := true,
          revalidateOnlyGenerated := true, ssgCacheKey := some ("/blog/a"),
          resSent := false, isPreviewMode := false, isDataReq := false,
          queryAmp := false, fallbackHtml := "",
          renderOutput := { body := some (.fromStatic ("h")), pageData := "d",
                            revalidate := none, isNotFound := false,
                            isRedirect := false } }
        false false =
      (.entry none, { rendered404 := true, doRenderCalls := 0 }) :=
  c2_manual_revalidate_404 _ false false rfl rfl rfl rfl

/-- Claim C6: whenever the miss handler serves a STATIC-fallback
skeleton (the production precomputed-artifact path of lines 1358-1371 as
well as the development on-demand path of lines 1372-1385, i.e. the
skeleton guard holds, the `NoFallbackError` abort does not fire, and this
is not a data request), any cache entry it returns carries no
`revalidate` value, so a skeleton's `revalidate` is never persisted. -/
theorem c6_skeleton_no_revalidate (ctx : HandlerCtx) (hasResolved hadCache : Bool)
    (e : ResponseCacheEntry)
    (hskip : fallbackSkipCond ctx hadCache = false)
    (houter : skeletonOuterCond ctx hasResolved hadCache = true)
    (hthrow : skeletonThrowCond ctx hadCache = false)
    (hdata : ctx.isDataReq = false)
    (hres : (responseGenerator ctx hasResolved hadCache).1 = .entry (some e)) :
    e.revalidate = none := by
  unfold responseGenerator at hres
  rcases hdev : ctx.dev with _ | _
  · simp [hskip, houter, hthrow, hdata, hdev] at hres
    rw [← hres]
  · rcases hdr : doRenderOf ctx.renderOutput with _ | r <;>
      simp [hskip, houter, hthrow, hdata, hdev, hdr] at hres
    rw [← hres]

/-- Witness for claim C6: the production skeleton entry for a
static-fallback dynamic page carries no `revalidate`. -/
theorem c6_skeleton_no_revalidate_witness :
    ({ revalidate := none,
       value := some (.page (.fromStatic ("skeleton")) emptyPageData) } : ResponseCacheEntry).revalidate = none :=
  c6_skeleton_no_revalidate
    { minimalMode := false, dev := false, pathnameIsDynamic := true,
      hasStaticPaths := true, staticPathsResult := (none, .static),
      isBotRequest := false, isManualRevalidate := false,
      revalidateOnlyGenerated := false, ssgCacheKey := some ("/blog/a"),
      resSent := false, isPreviewMode := false, isDataReq := false,
      queryAmp := false, fallbackHtml := "skeleton",
      renderOutput := { body := none, pageData := "d", revalidate := none,
                        isNotFound := false, isRedirect := false } }
    false false
    { revalidate := none,
      value := some (.page (.fromStatic ("skeleton")) emptyPageData) }
    rfl rfl rfl rfl rfl

/-- Claim C7: every producer result persisted through the normal
(non-skeleton) path of the miss handler keeps the producer's
`revalidate` unchanged when one was specified, and defaults it to
exactly `1` when the producer left it `undefined` (lines 1389-1399); the
produced value itself is persisted unchanged. -/
theorem c7_revalidate_default (ctx : HandlerCtx) (hasResolved hadCache : Bool)
    (r : ResponseCacheEntry)
    (hskip : fallbackSkipCond ctx hadCache = false)
    (hpath : skeletonOuterCond ctx hasResolved hadCache = false ∨
      (skeletonThrowCond ctx hadCache = false ∧ ctx.isDataReq = true))
    (hr : doRenderOf ctx.renderOutput = some r) :
    (responseGenerator ctx hasResolved hadCache).1 =
      .entry (some { r with revalidate :=
        match r.revalidate with
        | none => some (.num 1)
        | some v => some v }) := by
  have hmain : (handlerMainPath ctx).1 =
      .entry (some { r with revalidate :=
        match r.revalidate with
        | none => some (.num 1)
        | some v => some v }) := by
    unfold handlerMainPath
    rw [hr]
    rcases hrev : r.revalidate with _ | v <;>
      simp [persistRevalidate, hrev]
  unfold responseGenerator
  rcases hpath with houter | ⟨hthrow, hdata⟩
  · simp [hskip, houter, hmain]
  · by_cases houter : skeletonOuterCond ctx hasResolved hadCache = true
    · simp [hskip, houter, hthrow, hdata, hmain]
    · simp [hskip, houter, hmain]

/-- Witness for claim C7: a producer result with `revalidate` left
`undefined` is persisted with `revalidate` exactly `1`. -/
theorem c7_revalidate_default_witness :
    (responseGenerator
        { minimalMode := false, dev := false, pathnameIsDynamic := false,
          hasStaticPaths := true, staticPathsResult := (none, .blocking),
          isBotRequest := false, isManualRevalidate := false,
          revalidateOnlyGenerated := false, ssgCacheKey := some ("/about"),
          resSent := false, isPreviewMode := false, isDataReq := false,
          queryAmp := false, fallbackHtml := "",
          renderOutput := { body := some (.fromStatic ("h")), pageData := "d",
                            revalidate := none, isNotFound := false,
                            isRedirect := false } }
        false false).1 =
      .entry (some { revalidate := some (.num 1),
                     value := some (.page (.fromStatic ("h")) ("d")) }) :=
  c7_revalidate_default _ false false
    { revalidate := none, value := some (.page (.fromStatic ("h")) ("d")) }
    rfl (Or.inl rfl) rfl

/-- Claim C8: for a bot request against a dynamic page whose manifest
declares a string (static-placeholder) fallback, the effective fallback
mode the miss handler works with is `'blocking'` (the escalation of
lines 1291-1296), regardless of the declared mode and of manual
revalidation. -/
theorem c8_bot_escalation (ctx : HandlerCtx) (manifest : String → FallbackField)
    (pathname s : String) (hadCache : Bool)
    (hhas : ctx.hasStaticPaths = true)
    (hsp : ctx.staticPathsResult = getStaticPathsBase manifest pathname)
    (hfield : manifest pathname = .str s)
    (hbot : ctx.isBotRequest = true) :
    handlerEffectiveMode ctx hadCache = .blocking := by
  have hdecl : declaredFallbackMode ctx = .static := by
    unfold declaredFallbackMode
    rw [hhas, if_pos rfl, hsp]
    unfold getStaticPathsBase
    rw [hfield]
    rfl
  unfold handlerEffectiveMode
  rw [hdecl, hbot]
  unfold escalateForBot
  simp [FallbackMode.isStatic]
  unfold escalateForManual
  rcases ctx.isManualRevalidate with _ | _ <;> rfl

/-- Witness for claim C8 at a concrete bot request against
`/blog/[slug]` with `fallback: '/blog/[slug].html'`. -/
theorem c8_bot_escalation_witness :
    handlerEffectiveMode
      { minimalMode := false, dev := false, pathnameIsDynamic := true,
        hasStaticPaths := true,
        staticPathsResult :=
          getStaticPathsBase (fun _ => .str ("/blog/fallback.html")) ("/blog/[slug]"),
        isBotRequest := true, isManualRevalidate := false,
        revalidateOnlyGenerated := false, ssgCacheKey := some ("/blog/a"),
        resSent := false, isPreviewMode := false, isDataReq := false,
        queryAmp := false, fallbackHtml := "",
        renderOutput := { body := none, pageData := "d", revalidate := none,
                          isNotFound := false, isRedirect := false } }
      false = .blocking :=
  c8_bot_escalation _ (fun _ => .str ("/blog/fallback.html")) "/blog/[slug]"
    "/blog/fallback.html" false rfl rfl rfl rfl

/- ----------------------------------------------------------------- -/
/- Consuming the cache entry (source lines 1407-1498)                -/
/- ----------------------------------------------------------------- -/

/-- Request facts consumed by the code after `responseCache.get`
returns. -/
structure ServeCtx where
  ssgCacheKey : Option String
  isManualRevalidate : Bool
  revalidateOnlyGenerated : Bool
  isSSG : Bool
  minimalMode : Bool
  dev : Bool
  hasServerProps : Bool
  isDataReq : Bool
  isPreviewMode : Bool
  is404Page : Bool
deriving DecidableEq

/-- The tagged `ResponsePayload` returned to the caller: `'json'` for
data requests, `'html'` for markup requests. -/
inductive PayloadType where
  | json
  | html
deriving DecidableEq

/-- The revalidate-header options attached to a payload (lines
1435-1446). -/
structure RevalidateOptions where
  isPrivate : Bool
  stateful : Bool
  revalidate : Revalidate
deriving DecidableEq

/-- `ResponsePayload` (`{type, body, revalidateOptions}`). -/
structure ResponsePayload where
  ptype : PayloadType
  body : RenderRes
  revalidateOptions : Option RevalidateOptions
deriving DecidableEq

/-- How serving a cache entry ends when no error is thrown: a returned
payload, a `null` return after the not-found / redirect side responses,
or the silent `null` return of the manual-revalidate case. -/
inductive ServeOutcome where
  | payload (p : ResponsePayload)
  | noneNoEntry
  | notFoundData (status : Nat) (body : String)
  | notFoundPage
  | redirected (props : PageData)
deriving DecidableEq

/-- Lines 1434-1446: `revalidateOptions` is attached only when the
entry's `revalidate` is defined and this is a production render (or a
non-data `getServerSideProps` render in dev). -/
def revalidateOptionsOf (c : ServeCtx) (e : ResponseCacheEntry) : Option RevalidateOptions :=
  match e.revalidate with
  | some r =>
    if !c.dev || (c.hasServerProps && !c.isDataReq) then
      some { isPrivate := c.isPreviewMode || (c.is404Page && e.value.isSome),
             stateful := !c.isSSG,
             revalidate := r }
    else none
  | none => none

/-- Lines 1419-1432: the `x-nextjs-cache` header set for SSG pages
outside minimal mode. -/
def cacheHeaderOf (c : ServeCtx) (e : ResponseCacheEntry) : Option String :=
  if c.isSSG && !c.minimalMode then
    some (if c.isManualRevalidate then "REVALIDATED"
          else if e.isMiss then "MISS"
          else if e.isStale then "STALE"
          else "HIT")
  else none

/-- The code consuming the result of `responseCache.get` (lines
1407-1498): the missing-entry invariant check, the `x-nextjs-cache`
header (first component), and the dispatch on the cached value (payload
/ not-found / redirect / the `IMAGE` invariant violation). -/
def afterCacheGet (stringify : PageData → String) (c : ServeCtx)
    (entry : Option ResponseCacheEntry) :
    Option String × Except ServerError ServeOutcome :=
  match entry with
  | none =>
    (none,
     if c.ssgCacheKey.isSome && !(c.isManualRevalidate && c.revalidateOnlyGenerated) then
       .error (.invariantViolation ("cache entry required but not generated"))
     else .ok .noneNoEntry)
  | some e =>
    (cacheHeaderOf c e,
     match e.value with
     | none =>
       if c.isDataReq then .ok (.notFoundData 404 ("\x7b\"notFound\":true\x7d"))
       else .ok .notFoundPage
     | some (.redirect props) =>
       if c.isDataReq then
         .ok (.payload { ptype := .json, body := .fromStatic (stringify props),
                         revalidateOptions := revalidateOptionsOf c e })
       else .ok (.redirected props)
     | some .image =>
       .error (.invariantViolation ("SSG should not return an image cache value"))
     | some (.page html pageData) =>
       .ok (.payload { ptype := if c.isDataReq then .json else .html,
                       body := if c.isDataReq then .fromStatic (stringify pageData) else html,
                       revalidateOptions := revalidateOptionsOf c e }))

/- ----------------------------------------------------------------- -/
/- Claims C1 and C9                                                  -/
/- ----------------------------------------------------------------- -/

/-- Claim C1, as stated, fails on the code: when `responseCache.get`
returns no entry for a non-null `ssgCacheKey` but the request is a
manual revalidate under `revalidate-only-generated`, no invariant error
is raised — the code silently returns `null` (the guard at line 1408
excludes exactly that case). -/
theorem c1_missing_entry_counterexample :
    ({ ssgCacheKey := some ("/blog/a"), isManualRevalidate := true,
       revalidateOnlyGenerated := true, isSSG := true, minimalMode := false,
       dev := false, hasServerProps := false, isDataReq := false,
       isPreviewMode := false, is404Page := false } : ServeCtx).ssgCacheKey.isSome = true ∧
    (afterCacheGet (fun p => p)
        { ssgCacheKey := some ("/blog/a"), isManualRevalidate := true,
          revalidateOnlyGenerated := true, isSSG := true, minimalMode := false,
          dev := false, hasServerProps := false, isDataReq := false,
          isPreviewMode := false, is404Page := false }
        none).2 = .ok .noneNoEntry :=
  ⟨rfl, rfl⟩

/-- Claim C1 (amended): whenever `responseCache.get` returns no entry
for a non-null `ssgCacheKey` and the request is not a manual revalidate
under `revalidate-only-generated` (which was already answered with a
404), a fatal invariant error is raised, and that error kind is distinct
from the user-facing `NoFallbackError` and `DecodeError` kinds. -/
theorem c1_missing_entry_invariant (stringify : PageData → String) (c : ServeCtx)
    (hkey : c.ssgCacheKey.isSome = true)
    (hnot : ¬(c.isManualRevalidate = true ∧ c.revalidateOnlyGenerated = true)) :
    (afterCacheGet stringify c none).2 =
      .error (.invariantViolation ("cache entry required but not generated")) ∧
    ServerError.invariantViolation ("cache entry required but not generated") ≠
      ServerError.noFallback ∧
    ServerError.invariantViolation ("cache entry required but not generated") ≠
      ServerError.decode := by
  refine ⟨?_, by decide, by decide⟩
  unfold afterCacheGet
  rcases hm : c.isManualRevalidate with _ | _ <;>
    rcases hg : c.revalidateOnlyGenerated with _ | _ <;>
    simp_all

/-- Witness for the amended claim C1 at a concrete missing entry. -/
theorem c1_missing_entry_invariant_witness :
    (afterCacheGet (fun p => p)
        { ssgCacheKey := some ("/blog/a"), isManualRevalidate := false,
          revalidateOnlyGenerated := false, isSSG := true, minimalMode := false,
          dev := false, hasServerProps := false, isDataReq := false,
          isPreviewMode := false, is404Page := false }
        none).2 =
      .error (.invariantViolation ("cache entry required but not generated")) ∧
    ServerError.invariantViolation ("cache entry required but not generated") ≠
      ServerError.noFallback ∧
    ServerError.invariantViolation ("cache entry required but not generated") ≠
      ServerError.decode :=
  c1_missing_entry_invariant (fun p => p) _ rfl (by decide)

/-- Claim C9: a cache entry holding a `PAGE` value is served to a data
request as a `'json'` payload whose body is exactly the JSON
serialization of the stored `pageData`, and to a markup request as an
`'html'` payload whose body is exactly the stored html, unmodified
(lines 1490-1498). -/
theorem c9_page_roundtrip (stringify : PageData → String) (c : ServeCtx)
    (e : ResponseCacheEntry) (html : RenderRes) (pageData : PageData)
    (hval : e.value = some (.page html pageData)) :
    (afterCacheGet stringify c (some e)).2 =
      .ok (.payload { ptype := if c.isDataReq then .json else .html,
                      body := if c.isDataReq then .fromStatic (stringify pageData) else html,
                      revalidateOptions := revalidateOptionsOf c e }) := by
  unfold afterCacheGet
  simp only [hval]

/-- Witness for claim C9: a concrete `PAGE` entry served to a data
request returns the serialized page data as JSON. -/
theorem c9_page_roundtrip_witness :
    (afterCacheGet (fun p => p)
        { ssgCacheKey := some ("/blog/a"), isManualRevalidate := false,
          revalidateOnlyGenerated := false, isSSG := true, minimalMode := false,
          dev := false, hasServerProps := false, isDataReq := true,
          isPreviewMode := false, is404Page := false }
        (some { revalidate := some (.num 1),
                value := some (.page (.fromStatic ("<p>hi</p>")) ("propsjson")) })).2 =
      .ok (.payload { ptype := .json, body := .fromStatic ("propsjson"),
                      revalidateOptions :=
                        revalidateOptionsOf
                          { ssgCacheKey := some ("/blog/a"), isManualRevalidate := false,
                            revalidateOnlyGenerated := false, isSSG := true,
                            minimalMode := false, dev := false, hasServerProps := false,
                            isDataReq := true, isPreviewMode := false, is404Page := false }
                          { revalidate := some (.num 1),
                            value := some (.page (.fromStatic ("<p>hi</p>")) ("propsjson")) } }) :=
  c9_page_roundtrip (fun p => p) _ _ (.fromStatic ("<p>hi</p>")) "propsjson" rfl

/- ----------------------------------------------------------------- -/
/- Early checks of renderToResponseWithComponents (lines 1000-1035)  -/
/- ----------------------------------------------------------------- -/

/-- Request/page facts consumed by the early checks: the 404/500 status
forcing, the 405 method guard, and the static string-component
shortcut. -/
structure EarlyCtx where
  pathname : String
  method : String
  statusCode0 : Option Nat
  componentIsString : Bool
  componentHtml : String
  isSSG : Bool
  isDataReq : Bool
  isFlightRequest : Bool
deriving DecidableEq

/-- Modelled from the spec: the status-pages list from the shared
constants module (not under `src/`); per the source comment it covers
direct visits to pages like `/500` (a direct `/404` visit is handled by
the preceding check). -/
def STATIC_STATUS_PAGES : List String := ["/500"]

/-- How the early phase ends: the 405 method rejection (error page
rendered, `null` returned), the static string-component response, or
falling through to the render/cache pipeline. -/
inductive EarlyStep where
  | methodNotAllowed
  | staticHtml (body : RenderRes)
  | proceed
deriving DecidableEq

/-- Observable outcome of the early phase: the response status code as
set so far, the `Allow` header if set, whether the error page was
rendered, and how control flow continues. -/
structure EarlyResult where
  statusCode : Option Nat
  allowHeader : Option (List String)
  renderedErrorPage : Bool
  step : EarlyStep
deriving DecidableEq

/-- The early checks of `renderToResponseWithComponents` (lines
1000-1035): force 404 on direct `/404` visits, force the numeric status
on `STATIC_STATUS_PAGES`, reject non-GET/HEAD methods on
statically-rendered pages with a 405 plus `Allow: GET, HEAD` and an
error-page render, and short-circuit string components. -/
def earlyChecks (c : EarlyCtx) : EarlyResult :=
  let is404 := decide (c.pathname = "/404")
  let is500 := decide (c.pathname = "/500")
  let st1 := if is404 && !c.isDataReq && !c.isFlightRequest then some 404 else c.statusCode0
  let st2 := if STATIC_STATUS_PAGES.contains c.pathname
    then ((c.pathname.drop 1).toNat?) else st1
  if !is404 && !is500 && !(decide (c.pathname = "/_error")) &&
      !(decide (c.method = "HEAD")) && !(decide (c.method = "GET")) &&
      (c.componentIsString || c.isSSG) then
    { statusCode := some 405, allowHeader := some (["GET", "HEAD"]),
      renderedErrorPage := true, step := .methodNotAllowed }
  else if c.componentIsString then
    { statusCode := st2, allowHeader := none, renderedErrorPage := false,
      step := .staticHtml (.fromStatic c.componentHtml) }
  else
    { statusCode := st2, allowHeader := none, renderedErrorPage := false,
      step := .proceed }

/-- Claim C10: a request to a statically-rendered page (string component
or SSG) whose pathname is none of `/404`, `/500`, `/_error`, with a
method other than GET/HEAD, is answered with status 405, an
`Allow: GET, HEAD` header, and an error-page render instead of the page
itself (lines 1011-1026). -/
theorem c10_method_not_allowed (c : EarlyCtx)
    (h404 : ¬(c.pathname = "/404")) (h500 : ¬(c.pathname = "/500"))
    (herr : ¬(c.pathname = "/_error"))
    (hget : ¬(c.method = "GET")) (hhead : ¬(c.method = "HEAD"))
    (hstatic : c.componentIsString = true ∨ c.isSSG = true) :
    earlyChecks c =
      { statusCode := some 405, allowHeader := some (["GET", "HEAD"]),
        renderedErrorPage := true, step := .methodNotAllowed } := by
  unfold earlyChecks
  rcases hstatic with h | h <;>
    simp [h404, h500, herr, hget, hhead, h]

/-- Witness for claim C10: a POST to an SSG page `/about`. -/
theorem c10_method_not_allowed_witness :
    earlyChecks
        { pathname := "/about", method := "POST", statusCode0 := none,
          componentIsString := false, componentHtml := "", isSSG := true,
          isDataReq := false, isFlightRequest := false } =
      { statusCode := some 405, allowHeader := some (["GET", "HEAD"]),
        renderedErrorPage := true, step := .methodNotAllowed } :=
  c10_method_not_allowed _ (by decide) (by decide) (by decide) (by decide)
    (by decide) (Or.inr rfl)

/- ----------------------------------------------------------------- -/
/- The dispatcher: renderPageComponent / renderToResponse            -/
/- (source lines 1531-1693)                                          -/
/- ----------------------------------------------------------------- -/

/-- How trying one page candidate inside `renderPageComponent` ends:
`findPageComponents` found nothing (`result` is `false`), the render
returned a payload (possibly `null`), the render threw
`NoFallbackError`, or it threw some other error. -/
inductive CandidateOutcome where
  | noComponents
  | ok (p : Option ResponsePayload)
  | noFallback
  | err (e : ServerError)
deriving DecidableEq

/-- `renderPageComponent` (lines 1531-1565): a `NoFallbackError` is
swallowed (candidate yields `false`) unless `bubbleNoFallback` is set;
every other error propagates. -/
def renderPageComponentM (bubble : Bool) :
    CandidateOutcome → Except ServerError (Option (Option ResponsePayload))
  | .noComponents => .ok none
  | .ok p => .ok (some p)
  | .noFallback => if bubble then .error .noFallback else .ok none
  | .err e => .error e

/-- The inputs of one `renderToResponse` run: the literal (non-dynamic)
candidate, the dynamic-route candidates in manifest order (`none` when
the matcher does not match the pathname), the web-server last-resort
candidate, and the flags consumed by the wrap-up code. `devOrMinimal`
is `(minimalMode && !edge) || dev` (line 1659-1662); `catchAllDataCase`
is the `catchAllMiddleware` + `x-nextjs-data` special case of lines
1675-1689. -/
structure DispatchCtx where
  pathnameIsDynamic : Bool
  staticCandidate : CandidateOutcome
  dynamicCandidates : List (Option CandidateOutcome)
  webServerCandidate : Option CandidateOutcome
  bubbleNoFallback : Bool
  catchAllDataCase : Bool
  devOrMinimal : Bool
deriving DecidableEq

/-- The ordered candidate list actually tried (lines 1578-1615): the
literal page first unless the pathname itself is dynamic, then the
matching dynamic routes, then the web-server page if configured. -/
def candidateList (d : DispatchCtx) : List CandidateOutcome :=
  (if d.pathnameIsDynamic then [] else [d.staticCandidate]) ++
    d.dynamicCandidates.filterMap id ++
    (match d.webServerCandidate with
     | some c => [c]
     | none => [])

/-- Walk the candidates: first candidate that does not yield `false`
wins; errors abort the walk (the body of the `try` at lines 1575-1615). -/
def tryCandidates (bubble : Bool) :
    List CandidateOutcome → Except ServerError (Option (Option ResponsePayload))
  | [] => .ok none
  | c :: rest =>
    match renderPageComponentM bubble c with
    | .ok none => tryCandidates bubble rest
    | .ok (some p) => .ok (some p)
    | .error e => .error e

/-- How a `renderToResponse` run ends: a payload, an error-page response
with the given status (400 for decode/normalize errors, 500 for render
errors, 404 on candidate exhaustion), a rethrown error, or the
matched-path JSON short-circuit. -/
inductive DispatchResult where
  | payload (p : Option ResponsePayload)
  | errorResponse (status : Nat)
  | rethrown (e : ServerError)
  | matchedPathJson
deriving DecidableEq

/-- The `catch` of `renderToResponse` (lines 1616-1673):
`MissingStaticPage` always rethrows, `NoFallbackError` rethrows when
bubbling, decode/normalize errors produce a 400 error page, wrapped
build errors produce a 500 error page, and anything else rethrows in
dev/minimal contexts and produces a 500 error page otherwise. -/
def dispatchCatch (devOrMinimal bubble : Bool) : ServerError → DispatchResult
  | .missingStaticPage => .rethrown .missingStaticPage
  | .noFallback =>
    if bubble then .rethrown .noFallback
    else if devOrMinimal then .rethrown .noFallback
    else .errorResponse 500
  | .decode => .errorResponse 400
  | .normalize => .errorResponse 400
  | .wrappedBuild => .errorResponse 500
  | e => if devOrMinimal then .rethrown e else .errorResponse 500

/-- `renderToResponse` (lines 1567-1693): walk the candidates, handle a
thrown error in the catch, and on exhaustion serve the matched-path JSON
special case or set status 404 and render the error page. -/
def renderToResponseM (d : DispatchCtx) : DispatchResult :=
  match tryCandidates d.bubbleNoFallback (candidateList d) with
  | .ok (some p) => .payload p
  | .ok none => if d.catchAllDataCase then .matchedPathJson else .errorResponse 404
  | .error e => dispatchCatch d.devOrMinimal d.bubbleNoFallback e

/-- Candidates that only yield `false` (no components, or a swallowed
`NoFallbackError`) exhaust the walk. -/
theorem tryCandidates_exhausted (l : List CandidateOutcome)
    (hall : ∀ c ∈ l, c = .noComponents ∨ c = .noFallback) :
    tryCandidates false l = .ok none := by
  induction l with
  | nil => rfl
  | cons c rest ih =>
    rcases hall c (List.mem_cons_self c rest) with h | h <;>
      subst h <;>
      simpa [tryCandidates, renderPageComponentM] using
        ih (fun x hx => hall x (List.mem_cons_of_mem _ hx))

/-- Claim C3: on a production cache miss for a dynamic page whose
resolved path is not in the precomputed static-paths set and whose
fallback is declared `false`, the miss handler throws `NoFallbackError`
(lines 1331-1356), and a dispatcher run in which every tried candidate
ends in `NoFallbackError` (or finds no components), without bubbling and
outside the matched-path special case, sets status 404 and renders the
error page (lines 1691-1692). -/
theorem c3_no_fallback_404 (ctx : HandlerCtx) (hadCache : Bool) (d : DispatchCtx)
    (hdev : ctx.dev = false)
    (hmin : ctx.minimalMode = false)
    (hdyn : ctx.pathnameIsDynamic = true)
    (hmode : declaredFallbackMode ctx = .disabled)
    (hkey : ctx.ssgCacheKey.isSome = true)
    (hsent : ctx.resSent = false)
    (hprev : ctx.isPreviewMode = false)
    (hcache : hadCache = false)
    (hnotin : (match handlerStaticPaths ctx with
      | none => true
      | some sp => !sp.contains (ampAdjustedKey ctx)) = true)
    (hskip : ¬(ctx.isManualRevalidate = true ∧ ctx.revalidateOnlyGenerated = true))
    (hbub : d.bubbleNoFallback = false)
    (hcat : d.catchAllDataCase = false)
    (hall : ∀ c ∈ candidateList d, c = .noComponents ∨ c = .noFallback) :
    (responseGenerator ctx false hadCache).1 = .noFallbackError ∧
    renderToResponseM d = .errorResponse 404 := by
  have heff : handlerEffectiveMode ctx hadCache = .disabled := by
    unfold handlerEffectiveMode
    rw [hmode]
    have hbot : escalateForBot .disabled ctx.isBotRequest = .disabled := by
      unfold escalateForBot
      simp [FallbackMode.isStatic]
    rw [hbot]
    unfold escalateForManual
    simp [FallbackMode.isDisabled, hcache]
  have hskipc : fallbackSkipCond ctx hadCache = false := by
    unfold fallbackSkipCond
    rcases hm : ctx.isManualRevalidate with _ | _ <;>
      rcases hg : ctx.revalidateOnlyGenerated with _ | _ <;>
      simp_all
  have houter : skeletonOuterCond ctx false hadCache = true := by
    unfold skeletonOuterCond skeletonPathCheck
    simp [hmin, heff, FallbackMode.isBlocking, hkey, hsent, hprev, hdyn, hdev]
  have hthrow : skeletonThrowCond ctx hadCache = true := by
    unfold skeletonThrowCond
    simp [hdev, heff, FallbackMode.isStatic]
  constructor
  · unfold responseGenerator
    simp [hskipc, houter, hthrow]
  · unfold renderToResponseM
    rw [hbub, tryCandidates_exhausted (candidateList d) hall]
    simp [hcat]

/-- Witness for claim C3: `/blog/hello` against dynamic page
`/blog/[slug]` with `fallback: false` in production throws
`NoFallbackError`, and the dispatcher, with that sole matching candidate
exhausted, serves a 404. -/
theorem c3_no_fallback_404_witness :
    (responseGenerator
        { minimalMode := false, dev := false, pathnameIsDynamic := true,
          hasStaticPaths := true, staticPathsResult := (none, .disabled),
          isBotRequest := false, isManualRevalidate := false,
          revalidateOnlyGenerated := false, ssgCacheKey := some ("/blog/hello"),
          resSent := false, isPreviewMode := false, isDataReq := false,
          queryAmp := false, fallbackHtml := "",
          renderOutput := { body := none, pageData := "d", revalidate := none,
                            isNotFound := false, isRedirect := false } }
        false false).1 = .noFallbackError ∧
    renderToResponseM
        { pathnameIsDynamic := true, staticCandidate := .noComponents,
          dynamicCandidates := [some .noFallback, none],
          webServerCandidate := none, bubbleNoFallback := false,
          catchAllDataCase := false, devOrMinimal := false } =
      .errorResponse 404 :=
  c3_no_fallback_404 _ false _ rfl rfl rfl rfl rfl rfl rfl rfl rfl
    (by decide) rfl rfl (by decide)

end NextBase
